import Mathlib

/-!
Shallow embedding of the TRP backend, a FastAPI service whose relevant code
lives in src/api/v1/endpoints/properties.py, cart.py and wishlist.py.
The embedding models the filter builder, the property transformer, the
listing and media fetches, the bounded fan-out, and the cart and wishlist
passthrough endpoints, each as a function of the external responses it
consumes.  Theorems about the claims of the specification follow the
definitions.
-/

/-- Single-quote character, written via an escape, used inside the OData
filter literals built by the service. -/
def sQuote : String := "\x27"

/-- Model of the Python values the endpoints manipulate: None, strings and
integers (the shapes relevant to the claims). -/
inductive PyVal where
  | vNone : PyVal
  | vStr : String → PyVal
  | vInt : Int → PyVal
  deriving DecidableEq, Repr

/-- Python truthiness for the modelled values: None, the empty string and
zero are falsy. -/
def truthy : PyVal → Bool
  | .vNone => false
  | .vStr s => !(s == "")
  | .vInt n => !(n == 0)

/-- Python `a or b`: the left value when truthy, else the right value. -/
def pyOr (a b : PyVal) : PyVal := if truthy a then a else b

/-- Value of a decimal digit character. -/
def charDigit (c : Char) : Option Nat :=
  if c.toNat ≥ 48 ∧ c.toNat ≤ 57 then some (c.toNat - 48) else none

/-- Value of a nonempty run of decimal digits, most significant first. -/
def digitsVal : List Char → Nat → Option Nat
  | [], acc => some acc
  | c :: rest, acc =>
    match charDigit c with
    | some d => digitsVal rest (acc * 10 + d)
    | none => none

/-- Python `int(s)` on a string: an optional sign followed by at least one
decimal digit; anything else raises a ValueError, modelled as `none`.
Surrounding whitespace and digit-group underscores, which Python also
accepts, are not modelled; no claim involves them. -/
def pyStrToInt (s : String) : Option Int :=
  match s.data with
  | [] => none
  | '-' :: rest =>
    if rest = [] then none
    else (digitsVal rest 0).map (fun n => -(n : Int))
  | '+' :: rest =>
    if rest = [] then none
    else (digitsVal rest 0).map (fun n => (n : Int))
  | cs => (digitsVal cs 0).map (fun n => (n : Int))

/-- Python `int(v)`: integers pass through, strings are parsed as integer
literals (a ValueError, modelled as `none`, otherwise) and None raises a
TypeError. -/
def pyInt : PyVal → Option Int
  | .vInt n => some n
  | .vStr s => pyStrToInt s
  | .vNone => none

/-- A raw listing record as decoded from the external API: a mapping of
string keys to values (Python dict, keys unique). -/
abbrev RawListing := List (String × PyVal)

/-- Python `d.get(k, default)`. -/
def RawListing.get (r : RawListing) (k : String) (d : PyVal) : PyVal :=
  match r.lookup k with
  | some v => v
  | none => d

/-- Coercion of a modelled value to a string: Python string operations such
as `join` raise a TypeError (modelled as `none`) on non-strings. -/
def asStr : PyVal → Option String
  | .vStr s => some s
  | _ => none

/-- Coercion of a list of modelled values to strings, failing on the
first non-string as Python `join` does. -/
def strAll : List PyVal → Option (List String)
  | [] => some []
  | v :: vs =>
    match asStr v, strAll vs with
    | some s, some ss => some (s :: ss)
    | _, _ => none

/-- Python `sep.join(vs)`: every element must be a string. -/
def pyStrJoin (sep : String) (vs : List PyVal) : Option String :=
  (strAll vs).map (String.intercalate sep)

/-- The transformed output record built by transform_property
(properties.py lines 140-156). -/
structure PropertyView where
  id : PyVal
  images : List PyVal
  price : PyVal
  address : String
  added : PyVal
  beds : Int
  baths : Int
  parking : Int
  sqft : PyVal
  location : PyVal
  areaCode : PyVal
  propertyType : PyVal
  availableDate : PyVal
  leaseTerms : PyVal
  description : PyVal
  deriving DecidableEq, Repr

/-- Address components assembled by transform_property (properties.py
lines 131-137): street, city, region, postal code, and the country
defaulted to CA when falsy. -/
def address_parts (r : RawListing) : List PyVal :=
  [ r.get "PropertyAddress" (.vStr ""),
    r.get "City" (.vStr ""),
    r.get "StateOrProvince" (.vStr ""),
    r.get "PostalCode" (.vStr ""),
    pyOr (r.get "Country" (.vStr "")) (.vStr "CA") ]

/-- The composed address string (properties.py line 138), Python
`", ".join(filter(None, address_parts))`. -/
def address_str (r : RawListing) : Option String :=
  pyStrJoin ", " ((address_parts r).filter truthy)

/-- Numeric field extraction of transform_property (properties.py lines
146-148), Python `int(r.get(k, 0) or 0)`. -/
def numField (r : RawListing) (k : String) : Option Int :=
  pyInt (pyOr (r.get k (.vInt 0)) (.vInt 0))

/-- transform_property (properties.py lines 125-156).  A raised exception
from `int()` or `join` is modelled as `none`.  The Python default
`media_urls=None` becomes the empty list; the call sites modelled here
always pass the list explicitly. -/
def transform_property (r : RawListing) (media_urls : List PyVal) :
    Option PropertyView :=
  match address_str r, numField r "BedroomsTotal",
      numField r "BathroomsTotalInteger", numField r "ParkingTotal" with
  | some addr, some beds, some baths, some parking => some {
    id := r.get "ListingKey" (.vStr ""),
    images := media_urls,
    price := r.get "ListPrice" (.vStr ""),
    address := addr,
    added := r.get "ListingContractDate" (.vStr ""),
    beds := beds,
    baths := baths,
    parking := parking,
    sqft := r.get "LivingArea" (.vStr ""),
    location := r.get "City" (.vStr ""),
    areaCode := r.get "Area" (.vStr ""),
    propertyType := r.get "PropertyType" (.vStr ""),
    availableDate := r.get "AvailableDate" (.vStr ""),
    leaseTerms := r.get "LeaseTerm" (.vStr ""),
    description := pyOr (pyOr (r.get "PublicRemarks" (.vStr ""))
      (r.get "PrivateRemarks" (.vStr ""))) (.vStr "") }
  | _, _, _, _ => none

/-- The three base predicates of build_filter_str (properties.py lines
50-54). -/
def basePredicates : List String :=
  [ "PropertyType eq " ++ sQuote ++ "Residential Freehold" ++ sQuote,
    "RentalApplicationYN eq true",
    "OriginatingSystemName eq " ++ sQuote ++ "Toronto Regional Real Estate Board" ++ sQuote ]

/-- build_filter_str (properties.py lines 39-78).  Prices are floats in
the source; they are modelled as integers, which none of the claims about
clause structure depend on.  The property_type argument is accepted and
ignored, as in the source.  The city check is Python truthiness
(`if city:`), the six numeric checks are `is not None`. -/
def build_filter_str (city : Option String)
    (min_price max_price : Option Int)
    (min_beds max_beds : Option Int)
    (min_baths max_baths : Option Int)
    (property_type : Option String) : String :=
  let filters := basePredicates
  let filters := match city with
    | some c =>
      if c == "" then filters
      else filters ++ ["contains(City, " ++ sQuote ++ c ++ sQuote ++ ")"]
    | none => filters
  let filters := match min_price with
    | some p => filters ++ ["ListPrice ge " ++ toString p]
    | none => filters
  let filters := match max_price with
    | some p => filters ++ ["ListPrice le " ++ toString p]
    | none => filters
  let filters := match min_beds with
    | some b => filters ++ ["BedroomsTotal ge " ++ toString b]
    | none => filters
  let filters := match max_beds with
    | some b => filters ++ ["BedroomsTotal le " ++ toString b]
    | none => filters
  let filters := match min_baths with
    | some b => filters ++ ["BathroomsTotalInteger ge " ++ toString b]
    | none => filters
  let filters := match max_baths with
    | some b => filters ++ ["BathroomsTotalInteger le " ++ toString b]
    | none => filters
  String.intercalate " and " filters

/-- An HTTP error raised by an endpoint: a FastAPI HTTPException carrying a
status code and a detail string. -/
structure HTTPError where
  status : Nat
  detail : String
  deriving DecidableEq, Repr

/-- A cart or wishlist row returned by the row store. -/
structure Row where
  user_id : String
  property_id : String
  deriving DecidableEq, Repr

/-- Body of a successful add response: always `ok: true`, with an optional
note. -/
structure AddResult where
  ok : Bool
  message : Option String
  deriving DecidableEq, Repr

/-- add_to_cart (cart.py lines 14-35), as a function of the row-store
response: 201 and 200 succeed, 409 (duplicate row) succeeds with an
already-present note, and any other status is surfaced as an HTTPException
with that status and the response text. -/
def add_to_cart (status : Nat) (text : String) : Except HTTPError AddResult :=
  if status == 201 || status == 200 then .ok ⟨true, none⟩
  else if status == 409 then .ok ⟨true, some "Already in cart"⟩
  else .error ⟨status, text⟩

/-- add_to_wishlist (wishlist.py lines 14-31): only 201 and 200 succeed;
every other status, 409 included, is surfaced as an HTTPException. -/
def add_to_wishlist (status : Nat) (text : String) : Except HTTPError AddResult :=
  if !(status == 201 || status == 200) then .error ⟨status, text⟩
  else .ok ⟨true, none⟩

/-- Body of a successful cart list response (cart.py line 84). -/
structure CartListResult where
  cart : List String
  user_id : String
  count : Nat
  deriving DecidableEq, Repr

/-- Body of a successful wishlist list response (wishlist.py line 73). -/
structure WishlistListResult where
  wishlist : List String
  user_id : String
  count : Nat
  deriving DecidableEq, Repr

/-- list_cart (cart.py lines 57-84): a non-200 store status is surfaced
as-is; then every returned row has its user_id validated against the
caller, any mismatch raising HTTP 500; otherwise all property ids are
returned together with the caller id and the count. -/
def list_cart (user_id : String) (status : Nat) (text : String)
    (rows : List Row) : Except HTTPError CartListResult :=
  if !(status == 200) then .error ⟨status, text⟩
  else if rows.any (fun r => !(r.user_id == user_id)) then
    .error ⟨500, "Data integrity error: cart contains items from other users"⟩
  else .ok ⟨rows.map (fun r => r.property_id), user_id, rows.length⟩

/-- list_wishlist (wishlist.py lines 52-73): a non-200 store status is
surfaced as-is; the rows are returned without any user_id validation. -/
def list_wishlist (user_id : String) (status : Nat) (text : String)
    (rows : List Row) : Except HTTPError WishlistListResult :=
  if !(status == 200) then .error ⟨status, text⟩
  else .ok ⟨rows.map (fun r => r.property_id), user_id, rows.length⟩

/-- A decoded response from the external listing API: HTTP status, raw
body text, and the array found under the conventional value key (empty
when the key is absent). -/
structure UpstreamResponse where
  status : Nat
  body : String
  value : List RawListing
  deriving Repr

/-- The exceptions the properties endpoint can raise internally: a FastAPI
HTTPException, an httpx HTTPStatusError from raise_for_status, an httpx
transport error, and a ValueError from `int()`. -/
inductive PyExn where
  | httpException (status : Nat) (detail : String)
  | httpStatusError (status : Nat) (body : String)
  | transportError (msg : String)
  | valueError (msg : String)
  deriving DecidableEq, Repr

/-- Abbreviated rendering of Python str(e); no claim depends on its exact
text. -/
def exnStr : PyExn → String
  | .httpException _ d => d
  | .httpStatusError s _ => "HTTP status error " ++ toString s
  | .transportError m => m
  | .valueError m => m

/-- fetch_mls_data (properties.py lines 80-98): raises a 503 HTTPException
when MLS is not configured; a transport failure raises an httpx error; a
non-2xx status makes raise_for_status raise HTTPStatusError carrying the
upstream status and body; a 2xx response yields the value array. -/
def fetch_mls_data (configured : Bool) (resp : Except String UpstreamResponse) :
    Except PyExn (List RawListing) :=
  if !configured then .error (.httpException 503 "MLS API not configured.")
  else match resp with
    | .error msg => .error (.transportError msg)
    | .ok r =>
      if 200 ≤ r.status ∧ r.status < 300 then .ok r.value
      else .error (.httpStatusError r.status r.body)

/-- The exception handler of get_properties (properties.py lines 214-221):
an HTTPException is re-raised as-is, and every other exception becomes
HTTP 500 with a detail built from str(e). -/
def surfaceExn (e : PyExn) : HTTPError :=
  match e with
  | .httpException s d => ⟨s, d⟩
  | e => ⟨500, "Error fetching properties: " ++ exnStr e⟩

/-- The listing-fetch stage of get_properties combined with its exception
handler: what the caller of GET /properties observes when the fetch
fails. -/
def get_properties_on_fetch (configured : Bool)
    (resp : Except String UpstreamResponse) : Except HTTPError (List RawListing) :=
  match fetch_mls_data configured resp with
  | .ok v => .ok v
  | .error e => .error (surfaceExn e)

/-- fetch_largest_media (properties.py lines 100-123): empty when MLS is
not configured; any failure of the media call is swallowed and yields the
empty list; on success, the MediaURL values of the items whose MediaURL is
truthy, in response order. -/
def fetch_largest_media (configured : Bool)
    (resp : Except String (List RawListing)) : List PyVal :=
  if !configured then []
  else match resp with
    | .error _ => []
    | .ok media_data =>
      (media_data.filter (fun item => truthy (item.get "MediaURL" (.vStr "")))).map
        (fun item => item.get "MediaURL" (.vStr ""))

/-- The listing key of a raw listing, Python `p.get("ListingKey")`
(properties.py line 160). -/
def listingKey (p : RawListing) : PyVal := p.get "ListingKey" .vNone

/-- Whether the listing key is truthy, the negation of the drop condition
`if not listing_key` (properties.py line 161). -/
def hasListingKey (p : RawListing) : Bool := truthy (listingKey p)

/-- get_transformed_property (properties.py lines 158-167): a listing with
a falsy ListingKey yields None; otherwise media is fetched under the
semaphore (mediaOf gives the media response for a listing key) and the
listing is transformed; a transform failure propagates as a raised
exception. -/
def get_transformed_property (configured : Bool)
    (mediaOf : PyVal → Except String (List RawListing)) (p : RawListing) :
    Except PyExn (Option PropertyView) :=
  if !hasListingKey p then .ok none
  else
    match transform_property p
        (fetch_largest_media configured (mediaOf (listingKey p))) with
    | some v => .ok (some v)
    | none => .error (.valueError "invalid int literal")

/-- The asyncio.gather of get_properties (properties.py line 209): one
task per raw listing, results collected in the order of the task list; a
raised exception fails the whole gather. -/
def gatherTasks (configured : Bool)
    (mediaOf : PyVal → Except String (List RawListing)) :
    List RawListing → Except PyExn (List (Option PropertyView))
  | [] => .ok []
  | p :: ps =>
    match get_transformed_property configured mediaOf p,
        gatherTasks configured mediaOf ps with
    | .ok v, .ok vs => .ok (v :: vs)
    | .error e, _ => .error e
    | _, .error e => .error e

/-- The fan-out of get_properties (properties.py lines 207-212): gather
all per-listing tasks in input order, then drop the None results. -/
def enrich_all (configured : Bool)
    (mediaOf : PyVal → Except String (List RawListing))
    (props : List RawListing) : Except PyExn (List PropertyView) :=
  (gatherTasks configured mediaOf props).map (fun results => results.filterMap id)

/-- REQUEST_TIMEOUT (properties.py line 25); 30.0 in the source, the
fractional part being zero. -/
def REQUEST_TIMEOUT : Nat := 30

/-- Timeout argument of the listing fetch (properties.py line 95). -/
def fetch_mls_data_timeout : Option Nat := some REQUEST_TIMEOUT

/-- Timeout argument of the media fetch (properties.py line 115). -/
def fetch_largest_media_timeout : Option Nat := some REQUEST_TIMEOUT

/-- Timeout argument of the cart add call (cart.py line 30): none passed,
so the httpx client default applies. -/
def add_to_cart_timeout : Option Nat := none

/-- Timeout argument of the cart delete call (cart.py line 51). -/
def remove_from_cart_timeout : Option Nat := none

/-- Timeout argument of the cart list call (cart.py line 69). -/
def list_cart_timeout : Option Nat := none

/-- Timeout argument of the wishlist add call (wishlist.py line 28). -/
def add_to_wishlist_timeout : Option Nat := none

/-- Timeout argument of the wishlist delete call (wishlist.py line 46). -/
def remove_from_wishlist_timeout : Option Nat := none

/-- Timeout argument of the wishlist list call (wishlist.py line 63). -/
def list_wishlist_timeout : Option Nat := none

/-- Every outbound HTTP call site of the system with the timeout it
passes. -/
def allOutboundTimeouts : List (Option Nat) :=
  [ fetch_mls_data_timeout, fetch_largest_media_timeout,
    add_to_cart_timeout, remove_from_cart_timeout, list_cart_timeout,
    add_to_wishlist_timeout, remove_from_wishlist_timeout,
    list_wishlist_timeout ]

/-- CONCURRENCY_LIMIT (properties.py line 26), the size of the semaphore
created on line 37. -/
def CONCURRENCY_LIMIT : Nat := 4

/-- Phase of one fan-out unit of work (properties.py lines 158-167):
pending before the semaphore is acquired, fetching while holding a permit
inside the async-with block around fetch_largest_media, transforming after
the permit is released, finished afterwards. -/
inductive Phase where
  | pending
  | fetching
  | transforming
  | finished
  deriving DecidableEq, Repr

/-- State of the fan-out: free permits of the semaphore, and the phase of
each scheduled unit of work. -/
structure FanoutState where
  permits : Nat
  tasks : List Phase
  deriving DecidableEq, Repr

/-- One interleaving step of the fan-out: acquire consumes a free permit
and starts the media fetch, release returns the permit before the
transform runs, finish ends a task. -/
inductive FanoutStep : FanoutState → FanoutState → Prop where
  | acquire (p : Nat) (l r : List Phase) :
      FanoutStep ⟨p + 1, l ++ Phase.pending :: r⟩ ⟨p, l ++ Phase.fetching :: r⟩
  | release (p : Nat) (l r : List Phase) :
      FanoutStep ⟨p, l ++ Phase.fetching :: r⟩ ⟨p + 1, l ++ Phase.transforming :: r⟩
  | finish (p : Nat) (l r : List Phase) :
      FanoutStep ⟨p, l ++ Phase.transforming :: r⟩ ⟨p, l ++ Phase.finished :: r⟩

/-- Initial fan-out state for a batch of n listings: all permits free, all
units pending. -/
def initState (n : Nat) : FanoutState :=
  ⟨CONCURRENCY_LIMIT, List.replicate n Phase.pending⟩

/-- Number of media fetches currently in flight. -/
def countFetching (s : FanoutState) : Nat :=
  s.tasks.countP (fun ph => ph == Phase.fetching)

/-! Helper lemmas. -/

/-- The three base predicates joined by the and-separator, as one
literal. -/
def baseFilterString : String :=
  "PropertyType eq \x27Residential Freehold\x27 and RentalApplicationYN eq true and OriginatingSystemName eq \x27Toronto Regional Real Estate Board\x27"

/-- Spec reading of the city clause list, amended: a present non-empty
city contributes one containment predicate, an absent or empty city
contributes none. -/
def specCityClauses : Option String → List String
  | some c =>
    if c == "" then [] else ["contains(City, " ++ sQuote ++ c ++ sQuote ++ ")"]
  | none => []

/-- Spec reading of the price clause list: lower bound then upper bound,
absent bounds contributing nothing. -/
def specPriceClauses (min_price max_price : Option Int) : List String :=
  (match min_price with
    | some p => ["ListPrice ge " ++ toString p]
    | none => []) ++
  (match max_price with
    | some p => ["ListPrice le " ++ toString p]
    | none => [])

/-- Spec reading of the bedroom clause list. -/
def specBedClauses (min_beds max_beds : Option Int) : List String :=
  (match min_beds with
    | some b => ["BedroomsTotal ge " ++ toString b]
    | none => []) ++
  (match max_beds with
    | some b => ["BedroomsTotal le " ++ toString b]
    | none => [])

/-- Spec reading of the bathroom clause list. -/
def specBathClauses (min_baths max_baths : Option Int) : List String :=
  (match min_baths with
    | some b => ["BathroomsTotalInteger ge " ++ toString b]
    | none => []) ++
  (match max_baths with
    | some b => ["BathroomsTotalInteger le " ++ toString b]
    | none => [])

lemma intercalate_go_snoc (sep x acc : String) (l : List String) :
    String.intercalate.go acc sep (l ++ [x]) =
      String.intercalate.go acc sep l ++ sep ++ x := by
  induction l generalizing acc with
  | nil => rfl
  | cons a as ih => exact ih (acc ++ sep ++ a)

lemma intercalate_snoc (sep x a : String) (l : List String) :
    String.intercalate sep ((a :: l) ++ [x]) =
      String.intercalate sep (a :: l) ++ sep ++ x := by
  simpa [String.intercalate] using intercalate_go_snoc sep x a l

lemma intercalate_base_snoc (x : String) :
    String.intercalate " and " (basePredicates ++ [x]) =
      baseFilterString ++ " and " ++ x := by
  have h := intercalate_snoc " and " x
    ("PropertyType eq " ++ sQuote ++ "Residential Freehold" ++ sQuote)
    [ "RentalApplicationYN eq true",
      "OriginatingSystemName eq " ++ sQuote ++ "Toronto Regional Real Estate Board" ++ sQuote ]
  rw [show basePredicates ++ [x] =
    ("PropertyType eq " ++ sQuote ++ "Residential Freehold" ++ sQuote) ::
      [ "RentalApplicationYN eq true",
        "OriginatingSystemName eq " ++ sQuote ++ "Toronto Regional Real Estate Board" ++ sQuote ] ++ [x] from rfl]
  rw [h]
  rfl

/-! Claim theorems. -/

/-- C10: providing the city as the empty string produces the same filter
string as leaving the city absent, for every combination of the other
criteria. -/
theorem build_filter_str_empty_city_eq_absent
    (mp Mp mb Mb mba Mba : Option Int) (pt : Option String) :
    build_filter_str (some "") mp Mp mb Mb mba Mba pt =
      build_filter_str none mp Mp mb Mb mba Mba pt := rfl

/-- C6 counterexample: the claim that adding any one optional field
appends exactly one comparison clause fails for a city equal to the empty
string: the output is identical to the all-absent output, which is the
three base predicates joined by the and-separator. -/
theorem build_filter_str_empty_city_appends_nothing :
    build_filter_str (some "") none none none none none none none =
      build_filter_str none none none none none none none none ∧
    build_filter_str none none none none none none none none =
      baseFilterString := ⟨rfl, rfl⟩

/-- C6 amended: with all optional fields absent the filter builder returns
exactly the three base predicates joined by the and-separator; adding one
optional numeric field appends exactly one comparison clause, and adding a
non-empty city appends exactly one containment clause (an empty-string
city appends none, see the counterexample); and in general the output is
the and-join of the clauses in the fixed order base, city, price bounds,
bed bounds, bath bounds. -/
theorem build_filter_str_clause_structure :
    (build_filter_str none none none none none none none none =
      baseFilterString) ∧
    (∀ c : String, ¬ c = "" →
      build_filter_str (some c) none none none none none none none =
        baseFilterString ++ " and " ++
          ("contains(City, " ++ sQuote ++ c ++ sQuote ++ ")")) ∧
    (∀ p : Int, build_filter_str none (some p) none none none none none none =
      baseFilterString ++ " and " ++ ("ListPrice ge " ++ toString p)) ∧
    (∀ p : Int, build_filter_str none none (some p) none none none none none =
      baseFilterString ++ " and " ++ ("ListPrice le " ++ toString p)) ∧
    (∀ b : Int, build_filter_str none none none (some b) none none none none =
      baseFilterString ++ " and " ++ ("BedroomsTotal ge " ++ toString b)) ∧
    (∀ b : Int, build_filter_str none none none none (some b) none none none =
      baseFilterString ++ " and " ++ ("BedroomsTotal le " ++ toString b)) ∧
    (∀ b : Int, build_filter_str none none none none none (some b) none none =
      baseFilterString ++ " and " ++ ("BathroomsTotalInteger ge " ++ toString b)) ∧
    (∀ b : Int, build_filter_str none none none none none none (some b) none =
      baseFilterString ++ " and " ++ ("BathroomsTotalInteger le " ++ toString b)) ∧
    (∀ (city : Option String) (mp Mp mb Mb mba Mba : Option Int)
        (pt : Option String),
      build_filter_str city mp Mp mb Mb mba Mba pt =
        String.intercalate " and "
          (basePredicates ++ specCityClauses city ++ specPriceClauses mp Mp ++
            specBedClauses mb Mb ++ specBathClauses mba Mba)) := by
  refine ⟨rfl, ?_, ?_, ?_, ?_, ?_, ?_, ?_, ?_⟩
  · intro c hc
    have hce : (c == "") = false := beq_eq_false_iff_ne.mpr hc
    have h1 : build_filter_str (some c) none none none none none none none =
        String.intercalate " and "
          (basePredicates ++ ["contains(City, " ++ sQuote ++ c ++ sQuote ++ ")"]) := by
      simp [build_filter_str, hce]
    rw [h1, intercalate_base_snoc]
  · intro p; exact intercalate_base_snoc _
  · intro p; exact intercalate_base_snoc _
  · intro b; exact intercalate_base_snoc _
  · intro b; exact intercalate_base_snoc _
  · intro b; exact intercalate_base_snoc _
  · intro b; exact intercalate_base_snoc _
  · intro city mp Mp mb Mb mba Mba pt
    rcases city with _ | c
    · rcases mp with _ | p1 <;> rcases Mp with _ | p2 <;> rcases mb with _ | b1 <;>
        rcases Mb with _ | b2 <;> rcases mba with _ | b3 <;> rcases Mba with _ | b4 <;>
        simp [build_filter_str, specCityClauses, specPriceClauses, specBedClauses,
          specBathClauses, List.append_assoc]
    · cases hce : c == "" <;>
        rcases mp with _ | p1 <;> rcases Mp with _ | p2 <;> rcases mb with _ | b1 <;>
        rcases Mb with _ | b2 <;> rcases mba with _ | b3 <;> rcases Mba with _ | b4 <;>
        simp [build_filter_str, specCityClauses, specPriceClauses, specBedClauses,
          specBathClauses, hce, List.append_assoc]

/-- C6 witness: the amended clause-structure theorem applied at concrete
inputs, discharging the non-empty-city hypothesis. -/
theorem build_filter_str_clause_structure_witness :
    ¬ "Tor" = "" ∧
    build_filter_str (some "Tor") none none none none none none none =
      baseFilterString ++ " and " ++
        ("contains(City, " ++ sQuote ++ "Tor" ++ sQuote ++ ")") :=
  ⟨by decide, build_filter_str_clause_structure.2.1 "Tor" (by decide)⟩

/-- C3 counterexample: a 409 conflict from the store makes the wishlist
add operation raise an HTTPException carrying the 409 and the body, not a
success. -/
theorem add_to_wishlist_conflict_is_error :
    add_to_wishlist 409 "duplicate" = .error ⟨409, "duplicate"⟩ := rfl

/-- C3 amended: on a 409 conflict from the row store the cart add
operation returns ok with an already-present note, so calling cart add
twice succeeds both times; the wishlist add operation instead surfaces the
409 as an error and is not conflict-idempotent. -/
theorem add_conflict_handling (text : String) :
    add_to_cart 201 text = .ok ⟨true, none⟩ ∧
    add_to_cart 409 text = .ok ⟨true, some "Already in cart"⟩ ∧
    add_to_wishlist 201 text = .ok ⟨true, none⟩ ∧
    add_to_wishlist 409 text = .error ⟨409, text⟩ :=
  ⟨rfl, rfl, rfl, rfl⟩

/-- C8 counterexample: not every outbound call passes the fixed 30-unit
timeout; the cart add call passes none at all. -/
theorem not_all_outbound_calls_have_timeout :
    ¬ (∀ t ∈ allOutboundTimeouts, t = some 30) ∧ add_to_cart_timeout = none :=
  ⟨by decide, rfl⟩

/-- C8 amended: the listing fetch and the media fetch pass the fixed
REQUEST_TIMEOUT of 30 time-units; the six row-store calls of cart and
wishlist pass no timeout argument, leaving the httpx client default. -/
theorem outbound_timeouts :
    REQUEST_TIMEOUT = 30 ∧
    fetch_mls_data_timeout = some 30 ∧
    fetch_largest_media_timeout = some 30 ∧
    add_to_cart_timeout = none ∧
    remove_from_cart_timeout = none ∧
    list_cart_timeout = none ∧
    add_to_wishlist_timeout = none ∧
    remove_from_wishlist_timeout = none ∧
    list_wishlist_timeout = none :=
  ⟨rfl, rfl, rfl, rfl, rfl, rfl, rfl, rfl, rfl⟩

/-- C1 counterexample: the wishlist list operation, given a row belonging
to another user, returns that row without raising any integrity error. -/
theorem list_wishlist_returns_foreign_row :
    list_wishlist "A" 200 "" [⟨"B", "p1"⟩] = .ok ⟨["p1"], "A", 1⟩ := rfl

/-- C1 amended: the cart list operation validates every returned row and
raises HTTP 500 on any user_id mismatch, returning no data, and returns
all rows when every row matches; the wishlist list operation performs no
such validation and returns every row returned by the store. -/
theorem list_user_isolation (uid text : String) (rows : List Row) :
    ((∃ r ∈ rows, ¬ r.user_id = uid) →
      list_cart uid 200 text rows =
        .error ⟨500, "Data integrity error: cart contains items from other users"⟩) ∧
    ((∀ r ∈ rows, r.user_id = uid) →
      list_cart uid 200 text rows =
        .ok ⟨rows.map (fun r => r.property_id), uid, rows.length⟩) ∧
    (list_wishlist uid 200 text rows =
      .ok ⟨rows.map (fun r => r.property_id), uid, rows.length⟩) := by
  refine ⟨?_, ?_, rfl⟩
  · rintro ⟨r, hr, hne⟩
    have hany : rows.any (fun r => !(r.user_id == uid)) = true := by
      rw [List.any_eq_true]
      exact ⟨r, hr, by simpa using hne⟩
    simp [list_cart, hany]
  · intro hall
    have hany : rows.any (fun r => !(r.user_id == uid)) = false := by
      rw [List.any_eq_false]
      intro r hr
      simpa using hall r hr
    simp [list_cart, hany]

/-- C1 witness: the amended isolation theorem applied at concrete inputs,
discharging the mismatch hypothesis for the cart error case and the
all-match hypothesis for the cart success case. -/
theorem list_user_isolation_witness :
    (∃ r ∈ ([⟨"B", "p1"⟩] : List Row), ¬ r.user_id = "A") ∧
    list_cart "A" 200 "" [⟨"B", "p1"⟩] =
      .error ⟨500, "Data integrity error: cart contains items from other users"⟩ ∧
    list_cart "A" 200 "" [⟨"A", "p2"⟩] = .ok ⟨["p2"], "A", 1⟩ :=
  ⟨by decide, (list_user_isolation "A" "" [⟨"B", "p1"⟩]).1 (by decide),
    (list_user_isolation "A" "" [⟨"A", "p2"⟩]).2.1 (by decide)⟩

/-- C4 counterexample: a 404 from the upstream listing API is surfaced to
the caller of GET /properties as HTTP 500 with a generic message, not with
the upstream status echoed. -/
theorem upstream_status_not_echoed :
    get_properties_on_fetch true (.ok ⟨404, "nope", []⟩) =
      .error ⟨500, "Error fetching properties: HTTP status error 404"⟩ ∧
    ¬ (500 : Nat) = 404 := ⟨rfl, by decide⟩

/-- C4 amended: a non-success upstream status or a transport failure of
the listing fetch is surfaced to the caller of GET /properties as HTTP 500
with a generic error-fetching message, the upstream status and body being
swallowed; only the 503 raised when MLS is unconfigured passes through
unchanged. -/
theorem get_properties_fetch_failure_surface (status : Nat)
    (body : String) (value : List RawListing) (msg : String)
    (resp : Except String UpstreamResponse) :
    (¬ (200 ≤ status ∧ status < 300) →
      get_properties_on_fetch true (.ok ⟨status, body, value⟩) =
        .error ⟨500, "Error fetching properties: " ++
          exnStr (.httpStatusError status body)⟩) ∧
    (get_properties_on_fetch true (.error msg) =
      .error ⟨500, "Error fetching properties: " ++ exnStr (.transportError msg)⟩) ∧
    (get_properties_on_fetch false resp =
      .error ⟨503, "MLS API not configured."⟩) := by
  refine ⟨?_, rfl, rfl⟩
  intro h
  simp [get_properties_on_fetch, fetch_mls_data, surfaceExn, h]

/-- C4 witness: the amended error-surfacing theorem applied at a concrete
non-success status, discharging the non-success hypothesis. -/
theorem get_properties_fetch_failure_surface_witness :
    ¬ (200 ≤ 418 ∧ 418 < 300) ∧
    get_properties_on_fetch true (.ok ⟨418, "teapot", []⟩) =
      .error ⟨500, "Error fetching properties: " ++
        exnStr (.httpStatusError 418 "teapot")⟩ :=
  ⟨by decide,
    (get_properties_fetch_failure_surface 418 "teapot" [] "m" (.error "m")).1 (by decide)⟩

lemma strAll_map_vStr (ss : List String) :
    strAll (ss.map PyVal.vStr) = some ss := by
  induction ss with
  | nil => rfl
  | cons a t ih => simp [strAll, asStr, ih]

lemma filter_truthy_map_vStr (ss : List String) :
    (ss.map PyVal.vStr).filter truthy =
      (ss.filter (fun s => !(s == ""))).map PyVal.vStr := by
  induction ss with
  | nil => rfl
  | cons a t ih =>
    by_cases h : a = ""
    · subst h
      simpa [List.filter_cons, truthy] using ih
    · have hb : (a == "") = false := beq_eq_false_iff_ne.mpr h
      simp [List.filter_cons, truthy, hb, ih]

lemma pyStrJoin_filter_vStr (sep : String) (ss : List String) :
    pyStrJoin sep ((ss.map PyVal.vStr).filter truthy) =
      some (String.intercalate sep (ss.filter (fun s => !(s == "")))) := by
  rw [filter_truthy_map_vStr]
  unfold pyStrJoin
  rw [strAll_map_vStr]
  rfl

/-- A raw listing holding only the five string address components, used to
state the address-composition claim. -/
def mkAddrListing (street city region postal country : String) : RawListing :=
  [ ("PropertyAddress", .vStr street),
    ("City", .vStr city),
    ("StateOrProvince", .vStr region),
    ("PostalCode", .vStr postal),
    ("Country", .vStr country) ]

lemma address_parts_mkAddrListing (street city region postal country : String) :
    address_parts (mkAddrListing street city region postal country) =
      [street, city, region, postal,
        if country == "" then "CA" else country].map PyVal.vStr := by
  show [PyVal.vStr street, PyVal.vStr city, PyVal.vStr region, PyVal.vStr postal,
    pyOr (PyVal.vStr country) (PyVal.vStr "CA")] = _
  cases h : country == "" <;> simp [pyOr, truthy, h]

/-- C7: address composition joins the non-empty components street, city,
region, postal code and country (the country defaulting to CA exactly when
the source country is empty) with the comma-space separator, dropping
empty components; in particular the concrete components of the claim give
the expected address. -/
theorem address_composition (street city region postal country : String) :
    (address_str (mkAddrListing street city region postal country) =
      some (String.intercalate ", "
        ([street, city, region, postal,
          if country == "" then "CA" else country].filter (fun s => !(s == ""))))) ∧
    ((transform_property (mkAddrListing "123 Main" "" "ON" "M1M1M1" "") []).map
        PropertyView.address = some "123 Main, ON, M1M1M1, CA") := by
  constructor
  · unfold address_str
    rw [address_parts_mkAddrListing, pyStrJoin_filter_vStr]
  · rfl

lemma numField_falsy (r : RawListing) (k : String)
    (h : truthy (r.get k (.vInt 0)) = false) : numField r k = some 0 := by
  simp [numField, pyOr, h, pyInt]

lemma transform_property_fields (r : RawListing) (urls : List PyVal)
    (v : PropertyView) (h : transform_property r urls = some v) :
    v.images = urls ∧
    (∀ b, numField r "BedroomsTotal" = some b → v.beds = b) ∧
    (∀ b, numField r "BathroomsTotalInteger" = some b → v.baths = b) ∧
    (∀ b, numField r "ParkingTotal" = some b → v.parking = b) := by
  unfold transform_property at h
  split at h
  case _ addr b1 b2 b3 ha hb1 hb2 hb3 =>
    cases h
    refine ⟨rfl, ?_, ?_, ?_⟩ <;> intro b hb
    · rw [hb1] at hb; cases hb; rfl
    · rw [hb2] at hb; cases hb; rfl
    · rw [hb3] at hb; cases hb; rfl
  case _ => cases h

/-- C2 counterexample: the transformer is not total and does not coerce
non-numeric values to zero: on a listing whose BedroomsTotal is the truthy
non-numeric string abc, `int()` raises and transform fails. -/
theorem transform_property_nonnumeric_raises :
    transform_property [("BedroomsTotal", PyVal.vStr "abc")] [] = none ∧
    truthy (RawListing.get [("BedroomsTotal", PyVal.vStr "abc")]
      "BedroomsTotal" (.vInt 0)) = true := ⟨by decide, rfl⟩

/-- C2 amended: transform returns a PropertyView whenever the composed
address components are strings and the three numeric sources, after
falsy-to-zero defaulting, parse as integers; on the entirely empty mapping
it returns beds, baths and parking all zero and images empty; numeric
fields are zero whenever the source value is absent or falsy; but a truthy
non-numeric source value makes transform raise (see the counterexample)
rather than coerce to zero. -/
theorem transform_property_totality :
    ((transform_property [] []).map
      (fun v => (v.beds, v.baths, v.parking, v.images)) = some (0, 0, 0, [])) ∧
    (∀ (r : RawListing) (urls : List PyVal),
      (address_str r).isSome →
      (numField r "BedroomsTotal").isSome →
      (numField r "BathroomsTotalInteger").isSome →
      (numField r "ParkingTotal").isSome →
      (transform_property r urls).isSome) ∧
    (∀ (r : RawListing) (urls : List PyVal) (v : PropertyView),
      transform_property r urls = some v →
      v.images = urls ∧
      (truthy (r.get "BedroomsTotal" (.vInt 0)) = false → v.beds = 0) ∧
      (truthy (r.get "BathroomsTotalInteger" (.vInt 0)) = false → v.baths = 0) ∧
      (truthy (r.get "ParkingTotal" (.vInt 0)) = false → v.parking = 0)) := by
  refine ⟨rfl, ?_, ?_⟩
  · intro r urls h1 h2 h3 h4
    obtain ⟨a, ha⟩ := Option.isSome_iff_exists.mp h1
    obtain ⟨b1, hb1⟩ := Option.isSome_iff_exists.mp h2
    obtain ⟨b2, hb2⟩ := Option.isSome_iff_exists.mp h3
    obtain ⟨b3, hb3⟩ := Option.isSome_iff_exists.mp h4
    simp [transform_property, ha, hb1, hb2, hb3]
  · intro r urls v h
    obtain ⟨him, hbeds, hbaths, hpark⟩ := transform_property_fields r urls v h
    exact ⟨him,
      fun hf => hbeds 0 (numField_falsy r _ hf),
      fun hf => hbaths 0 (numField_falsy r _ hf),
      fun hf => hpark 0 (numField_falsy r _ hf)⟩

/-- C2 witness: the amended totality theorem applied to a concrete listing
with an integer bedroom count, discharging every parseability
hypothesis. -/
theorem transform_property_totality_witness :
    ((address_str [("BedroomsTotal", PyVal.vInt 3)]).isSome ∧
      (numField [("BedroomsTotal", PyVal.vInt 3)] "BedroomsTotal").isSome ∧
      (numField [("BedroomsTotal", PyVal.vInt 3)] "BathroomsTotalInteger").isSome ∧
      (numField [("BedroomsTotal", PyVal.vInt 3)] "ParkingTotal").isSome) ∧
    (transform_property [("BedroomsTotal", PyVal.vInt 3)] []).isSome :=
  ⟨⟨by decide, by decide, by decide, by decide⟩,
    transform_property_totality.2.1 [("BedroomsTotal", PyVal.vInt 3)] []
      (by decide) (by decide) (by decide) (by decide)⟩

lemma fetch_largest_media_error (configured : Bool) (e : String) :
    fetch_largest_media configured (.error e) = [] := by
  cases configured <;> rfl

lemma transform_property_isSome_congr (r : RawListing) (u w : List PyVal) :
    (transform_property r u).isSome = (transform_property r w).isSome := by
  unfold transform_property
  cases address_str r <;> cases numField r "BedroomsTotal" <;>
    cases numField r "BathroomsTotalInteger" <;>
    cases numField r "ParkingTotal" <;> rfl

lemma length_filterMap_ite {α β : Type} (q : α → Bool) (f : α → Option β)
    (l : List α) (h : ∀ a ∈ l, q a = true → (f a).isSome) :
    (l.filterMap (fun a => if q a then f a else none)).length =
      (l.filter q).length := by
  induction l with
  | nil => rfl
  | cons a t ih =>
    have ht : ∀ b ∈ t, q b = true → (f b).isSome :=
      fun b hb => h b (List.mem_cons_of_mem _ hb)
    cases hq : q a with
    | false => simp [List.filterMap_cons, List.filter_cons, hq, ih ht]
    | true =>
      obtain ⟨v, hv⟩ :=
        Option.isSome_iff_exists.mp (h a (List.mem_cons_self _ _) hq)
      simp [List.filterMap_cons, List.filter_cons, hq, hv, ih ht]

lemma enrich_all_ok (configured : Bool)
    (mediaOf : PyVal → Except String (List RawListing))
    (props : List RawListing)
    (h : ∀ p ∈ props, (transform_property p []).isSome) :
    enrich_all configured mediaOf props =
      .ok (props.filterMap (fun p =>
        if hasListingKey p then
          transform_property p
            (fetch_largest_media configured (mediaOf (listingKey p)))
        else none)) := by
  induction props with
  | nil => rfl
  | cons p ps ih =>
    have hp := h p (List.mem_cons_self _ _)
    have ihs := ih (fun q hq => h q (List.mem_cons_of_mem _ hq))
    cases hg : gatherTasks configured mediaOf ps with
    | error e =>
      rw [enrich_all, hg] at ihs
      simp [Except.map] at ihs
    | ok rs =>
      have hrs : rs.filterMap id = ps.filterMap (fun p =>
          if hasListingKey p then
            transform_property p
              (fetch_largest_media configured (mediaOf (listingKey p)))
          else none) := by
        rw [enrich_all, hg] at ihs
        simpa [Except.map] using ihs
      cases hk : hasListingKey p with
      | false =>
        simp [enrich_all, gatherTasks, get_transformed_property, hk, hg,
          Except.map, List.filterMap_cons, hrs]
      | true =>
        have hsome : (transform_property p
            (fetch_largest_media configured (mediaOf (listingKey p)))).isSome := by
          rw [transform_property_isSome_congr p _ []]
          exact hp
        obtain ⟨v, hv⟩ := Option.isSome_iff_exists.mp hsome
        simp [enrich_all, gatherTasks, get_transformed_property, hk, hg, hv,
          Except.map, List.filterMap_cons, hrs]

/-- C5 counterexample: a batch of one listing that has a listing key can
still produce an errored request with no entries at all, because a
transform failure (non-numeric bedroom count) propagates out of the
fan-out; the output does not have N entries. -/
theorem enrich_all_transform_failure_aborts :
    enrich_all true (fun _ => Except.ok [])
      [[("ListingKey", PyVal.vStr "k"), ("BedroomsTotal", PyVal.vStr "abc")]] =
      .error (.valueError "invalid int literal") ∧
    hasListingKey [("ListingKey", PyVal.vStr "k"),
      ("BedroomsTotal", PyVal.vStr "abc")] = true := ⟨rfl, rfl⟩

/-- C5 amended: provided every listing of the batch transforms without
raising (its numeric fields are well formed), the fan-out returns exactly
the keyed listings in input order, each transformed with the media its
fetch produced; the output length equals the number of keyed listings, so
a batch of N keyed listings yields N entries regardless of media
failures; and a listing whose media fetch failed appears with an empty
image list. -/
theorem enrich_all_structure (configured : Bool)
    (mediaOf : PyVal → Except String (List RawListing))
    (props : List RawListing)
    (h : ∀ p ∈ props, (transform_property p []).isSome) :
    (enrich_all configured mediaOf props =
      .ok (props.filterMap (fun p =>
        if hasListingKey p then
          transform_property p
            (fetch_largest_media configured (mediaOf (listingKey p)))
        else none))) ∧
    ((props.filterMap (fun p =>
        if hasListingKey p then
          transform_property p
            (fetch_largest_media configured (mediaOf (listingKey p)))
        else none)).length = (props.filter (fun p => hasListingKey p)).length) ∧
    (∀ p ∈ props, ∀ e, mediaOf (listingKey p) = .error e →
      ∀ v, transform_property p
          (fetch_largest_media configured (mediaOf (listingKey p))) = some v →
        v.images = []) := by
  refine ⟨enrich_all_ok configured mediaOf props h, ?_, ?_⟩
  · refine length_filterMap_ite _ _ props ?_
    intro p hp _
    rw [transform_property_isSome_congr p _ []]
    exact h p hp
  · intro p _ e he v hv
    have h1 := (transform_property_fields p _ v hv).1
    rw [he, fetch_largest_media_error] at h1
    exact h1

/-- C5 witness: the amended fan-out theorem applied to a concrete batch of
one keyed and one keyless listing whose media fetch always fails,
discharging the transformability hypothesis. -/
theorem enrich_all_structure_witness :
    (∀ p ∈ ([[("ListingKey", PyVal.vStr "k")], [("Area", PyVal.vInt 1)]] :
        List RawListing), (transform_property p []).isSome) ∧
    enrich_all true (fun _ => Except.error "boom")
        [[("ListingKey", PyVal.vStr "k")], [("Area", PyVal.vInt 1)]] =
      .ok (([[("ListingKey", PyVal.vStr "k")], [("Area", PyVal.vInt 1)]] :
          List RawListing).filterMap (fun p =>
        if hasListingKey p then
          transform_property p
            (fetch_largest_media true
              ((fun _ => Except.error "boom") (listingKey p)))
        else none)) :=
  ⟨by decide,
    (enrich_all_structure true (fun _ => Except.error "boom")
      [[("ListingKey", PyVal.vStr "k")], [("Area", PyVal.vInt 1)]]
      (by decide)).1⟩

lemma countP_replicate_pending (n : Nat) :
    (List.replicate n Phase.pending).countP (fun ph => ph == Phase.fetching) = 0 := by
  induction n with
  | zero => rfl
  | succ m ih => simp [List.replicate_succ, List.countP_cons, ih]

lemma fanout_invariant {n : Nat} {s : FanoutState}
    (h : Relation.ReflTransGen FanoutStep (initState n) s) :
    s.permits + countFetching s = CONCURRENCY_LIMIT := by
  induction h with
  | refl => simp [initState, countFetching, countP_replicate_pending]
  | tail hab hbc ih =>
    cases hbc with
    | acquire p l r =>
      simp only [countFetching, List.countP_append, List.countP_cons] at ih ⊢
      simp at ih ⊢
      omega
    | release p l r =>
      simp only [countFetching, List.countP_append, List.countP_cons] at ih ⊢
      simp at ih ⊢
      omega
    | finish p l r =>
      simp only [countFetching, List.countP_append, List.countP_cons] at ih ⊢
      simp at ih ⊢
      omega

/-- C9: in every state reachable by the fan-out from a batch of n
listings, at most CONCURRENCY_LIMIT media fetches are in flight, and the
permit pool size is exactly 4; a unit of work acquires a permit before its
media fetch and releases it before its transform, as encoded in the step
relation. -/
theorem fanout_concurrency_cap (n : Nat) (s : FanoutState)
    (h : Relation.ReflTransGen FanoutStep (initState n) s) :
    countFetching s ≤ CONCURRENCY_LIMIT ∧ CONCURRENCY_LIMIT = 4 := by
  have hinv := fanout_invariant h
  exact ⟨by omega, rfl⟩

/-- C9 witness: the concurrency-cap theorem applied to the concrete state
reached from a batch of one listing after its unit of work acquires a
permit. -/
theorem fanout_concurrency_cap_witness :
    Relation.ReflTransGen FanoutStep (initState 1) ⟨3, [Phase.fetching]⟩ ∧
    countFetching ⟨3, [Phase.fetching]⟩ ≤ CONCURRENCY_LIMIT :=
  have hstep : FanoutStep (initState 1) ⟨3, [Phase.fetching]⟩ :=
    FanoutStep.acquire 3 [] []
  ⟨Relation.ReflTransGen.single hstep,
    (fanout_concurrency_cap 1 ⟨3, [Phase.fetching]⟩
      (Relation.ReflTransGen.single hstep)).1⟩
